import Mathlib

/-
Verification of the creche-frontend client-side session/authorization core.

The embedding below follows the source files:
  * src/api/http.(ts|js)        — token store helpers, axios instance, interceptors
  * src/api/client.ts           — the fetch-based request helper and its callers
  * src/context/AuthContext.tsx — the AuthProvider session manager and useAuth
  * src/App.tsx                 — the RequireAuth / RequireAdmin / RequireUser guards

Asynchronous effects are embedded sequentially: each operation takes the
backend responses for the round trips it performs as explicit arguments, and
state (browser storage plus React state) is threaded explicitly.
-/

namespace Creche

/-- The browser localStorage slice holding the single key `creche_token`.
`stored` is the persisted value; `failing` models a storage whose accesses
throw (private mode, quota), which the source swallows with try/catch. -/
structure Storage where
  stored : Option String
  failing : Bool
deriving DecidableEq

/-- `getToken` from src/api/http: returns `localStorage.getItem(TOKEN_KEY)`,
and `null` when the storage access throws. -/
def getToken (s : Storage) : Option String :=
  if s.failing then none else s.stored

/-- `setToken(token)` from src/api/http: persists a truthy token, removes the
key for a falsy one (`null`/`undefined`/`""`), and silently swallows storage
failures. -/
def setToken (token : Option String) (s : Storage) : Storage :=
  if s.failing then s
  else
    match token with
    | some t => if t = "" then Storage.mk none s.failing else Storage.mk (some t) s.failing
    | none => Storage.mk none s.failing

/-- `clearToken()` from src/api/http: `setToken(null)`. -/
def clearToken (s : Storage) : Storage := setToken none s

/-- JavaScript truthiness of a `string | null` token value. -/
def tokenTruthy : Option String → Bool
  | some t => t != ""
  | none => false

/-- The axios request interceptor from src/api/http: reads the token store
and, when the token is truthy, sets `Authorization: Bearer <token>`; otherwise
it leaves the headers untouched. `auth` is the Authorization header the
request carried before interception (callers never set one). -/
def requestInterceptor (s : Storage) (auth : Option String) : Option String :=
  match getToken s with
  | some t => if t = "" then auth else some ("Bearer " ++ t)
  | none => auth

/-- An axios error as the response interceptor sees it: the HTTP status of the
response when one was received, and the structured payload axios parsed. -/
structure HttpErr where
  status : Option Nat
  payload : Option String
deriving DecidableEq

/-- The axios response error interceptor from src/api/http: it inspects a 401
status but takes no action on it, and rejects with the unchanged error in
every case. The pair is (token store after, error passed to the caller). -/
def responseErrorInterceptor (s : Storage) (e : HttpErr) : Storage × HttpErr :=
  if e.status = some 401 then (s, e) else (s, e)

/-- The axios response success interceptor from src/api/http: `(res) => res`. -/
def responseSuccessInterceptor {α : Type} (s : Storage) (r : α) : Storage × α := (s, r)

/-- The authenticated user's profile (`User` in src/context/AuthContext). -/
structure User where
  id : Nat
  fullName : String
  email : String
  role : String
deriving DecidableEq

/-- The Session State the AuthProvider exposes: the `user` / `loading` pair. -/
structure SessionState where
  user : Option User
  loading : Bool
deriving DecidableEq

/-- The whole client-side state: token storage plus session state. -/
structure World where
  storage : Storage
  session : SessionState
deriving DecidableEq

/-- A backend response to `GET /api/auth/me`, as a function of the
Authorization header the request carried through the gateway. -/
abbrev MeFn := Option String → Except HttpErr User

/-- The mount effect of AuthProvider (src/context/AuthContext): with a truthy
stored token it fetches `/api/auth/me` through the gateway; on success it
installs the user, on any failure it clears the token and the user; either way
the `finally` ends with `loading = false`. With no truthy token it only ends
the loading window. The error is consumed by the catch, never re-thrown. -/
def startupStep (me : MeFn) (w : World) : World :=
  if tokenTruthy (getToken w.storage) then
    match me (requestInterceptor w.storage none) with
    | Except.ok u => World.mk w.storage (SessionState.mk (some u) false)
    | Except.error _ => World.mk (clearToken w.storage) (SessionState.mk none false)
  else
    World.mk w.storage (SessionState.mk w.session.user false)

/-- `login` from AuthProvider: POST `/api/auth/login`; on success persist the
returned token with `setToken`, then GET `/api/auth/me` (whose interceptor
reads the freshly written store) and install the returned user. A failure at
either round trip rejects with that error; `loading` is never touched. -/
def loginStep (loginRes : Except HttpErr String) (me : MeFn) (w : World) :
    World × Except HttpErr Unit :=
  match loginRes with
  | Except.error e => (w, Except.error e)
  | Except.ok tok =>
    match me (requestInterceptor (setToken (some tok) w.storage) none) with
    | Except.error e =>
      (World.mk (setToken (some tok) w.storage) w.session, Except.error e)
    | Except.ok u =>
      (World.mk (setToken (some tok) w.storage)
        (SessionState.mk (some u) w.session.loading), Except.ok ())

/-- `register` from AuthProvider: POST `/api/auth/register`, then on success
the chained `login(email, password)` with identical semantics. -/
def registerStep (regRes : Except HttpErr Nat) (loginRes : Except HttpErr String)
    (me : MeFn) (w : World) : World × Except HttpErr Unit :=
  match regRes with
  | Except.error e => (w, Except.error e)
  | Except.ok _ => loginStep loginRes me w

/-- `logout` from AuthProvider: clear the token store and the user, with no
network round trip. -/
def logoutStep (w : World) : World :=
  World.mk (clearToken w.storage) (SessionState.mk none w.session.loading)

/-- One invocation of a Session Manager operation, carrying the backend's
responses for the round trips that invocation performs. -/
inductive Op where
  | startup (me : MeFn)
  | login (loginRes : Except HttpErr String) (me : MeFn)
  | register (regRes : Except HttpErr Nat) (loginRes : Except HttpErr String) (me : MeFn)
  | logout

def runOp : Op → World → World
  | Op.startup me, w => startupStep me w
  | Op.login lr me, w => (loginStep lr me w).1
  | Op.register rr lr me, w => (registerStep rr lr me w).1
  | Op.logout, w => logoutStep w

def runOps (ops : List Op) (w : World) : World :=
  ops.foldl (fun w op => runOp op w) w

/-- Cold start: arbitrary persisted storage, no user, loading window open. -/
def initialWorld (s : Storage) : World :=
  World.mk s (SessionState.mk none true)

/-- The identity endpoint rejects a request that carries no Authorization
header (spec §6: `GET /api/auth/me` returns the Identity for the current
token, so without a token there is no identity to return). -/
def requiresAuth (me : MeFn) : Prop := ∀ u : User, me none ≠ Except.ok u

/-- A successful token exchange issues a real (non-empty) bearer token. -/
def issuedToken (lr : Except HttpErr String) : Prop := lr ≠ Except.ok ""

/-- Backend well-formedness of one operation's responses: identity fetches
require credentials, and successful logins issue non-empty tokens. -/
def Op.WellBehaved : Op → Prop
  | Op.login lr me => requiresAuth me ∧ issuedToken lr
  | Op.register _ lr me => requiresAuth me ∧ issuedToken lr
  | _ => True

/-- The C3 invariant: a present Identity is backed by a truthy stored token. -/
def tokenBacked (w : World) : Prop :=
  ∀ u : User, w.session.user = some u → tokenTruthy (getToken w.storage) = true

/-- Outcome of a route guard: the neutral "Checking login…" placeholder, a
`Navigate` redirect, or rendering the guarded children. -/
inductive GateResult where
  | placeholder
  | redirect (dest : String)
  | render
deriving DecidableEq

/-- `RequireAuth` from src/App.tsx. -/
def RequireAuth (st : SessionState) : GateResult :=
  if st.loading then GateResult.placeholder
  else
    match st.user with
    | none => GateResult.redirect "/login"
    | some _ => GateResult.render

/-- `RequireAdmin` from src/App.tsx. -/
def RequireAdmin (st : SessionState) : GateResult :=
  if st.loading then GateResult.placeholder
  else
    match st.user with
    | none => GateResult.redirect "/login"
    | some u => if u.role ≠ "ADMIN" then GateResult.redirect "/" else GateResult.render

/-- `RequireUser` from src/App.tsx. -/
def RequireUser (st : SessionState) : GateResult :=
  if st.loading then GateResult.placeholder
  else
    match st.user with
    | none => GateResult.redirect "/login"
    | some u => if u.role ≠ "USER" then GateResult.redirect "/" else GateResult.render

/-- The role requirements for which src/App.tsx instantiates a guard: any
authenticated user, exact role ADMIN, exact role USER. Routes with no
requirement bypass the guards entirely. -/
inductive RoleReq where
  | anyAuth
  | admin
  | user
deriving DecidableEq

/-- The Route Authorization Gate: dispatch to the guard of the requirement. -/
def gate : RoleReq → SessionState → GateResult
  | RoleReq.anyAuth, st => RequireAuth st
  | RoleReq.admin, st => RequireAdmin st
  | RoleReq.user, st => RequireUser st

/-- A backend HTTP response as the fetch-based helper in src/api/client.ts
sees it: the status, plus the body that `res.text()` / `res.json()` read. -/
structure FetchResponse where
  status : Nat
  body : String
deriving DecidableEq

/-- `Response.ok` of the fetch API: status in the 2xx range. -/
def FetchResponse.isOk (r : FetchResponse) : Bool := 200 ≤ r.status && r.status < 300

/-- `request` from src/api/client.ts: on a non-ok response it throws
`new Error(await res.text())` — an error whose only content is the response
body text — and on an ok response it resolves with the (here opaque) parsed
body. -/
def fetchRequest (r : FetchResponse) : Except String String :=
  if r.isOk then Except.ok r.body else Except.error r.body

/-- The headers `request` from src/api/client.ts sends: the Content-Type
default spread together with whatever the caller passed in `init.headers`.
The token store is never consulted here. -/
def fetchRequestHeaders (callerHeaders : List (String × String)) :
    List (String × String) :=
  ("Content-Type", "application/json") :: callerHeaders

/-- `useAuth` from src/context/AuthContext: reads the context, whose value is
`undefined` (`none`) for a component outside any AuthProvider, and throws in
that case. The context value is abstracted to the Session State it carries. -/
def useAuth (ctx : Option SessionState) : Except String SessionState :=
  match ctx with
  | none => Except.error "useAuth must be used within AuthProvider"
  | some c => Except.ok c

-- ===================== Helper lemmas =====================

/-- Clearing always leaves the store reading as absent (a failing store reads
as absent anyway). -/
theorem getToken_clearToken (s : Storage) : getToken (clearToken s) = none := by
  cases h : s.failing <;> simp [clearToken, setToken, getToken, h]

/-- A write of a non-empty token to a working store is read back exactly. -/
theorem getToken_setToken_some (s : Storage) (t : String)
    (hfail : s.failing = false) (ht : t ≠ "") :
    getToken (setToken (some t) s) = some t := by
  simp [setToken, getToken, hfail, ht]

/-- The store never reads back an empty token after any write. -/
theorem getToken_setToken_ne_empty (s : Storage) (opt : Option String) (u : String)
    (h : getToken (setToken opt s) = some u) : u ≠ "" := by
  cases hfail : s.failing with
  | true => simp [setToken, getToken, hfail] at h
  | false =>
    cases opt with
    | none => simp [setToken, getToken, hfail] at h
    | some t =>
      by_cases ht : t = "" <;> simp [setToken, getToken, hfail, ht] at h
      intro hu
      rw [hu] at h
      exact ht h

/-- With no truthy token in the store, the interceptor leaves the headers
untouched. -/
theorem requestInterceptor_not_truthy (s : Storage) (auth : Option String)
    (h : tokenTruthy (getToken s) = false) : requestInterceptor s auth = auth := by
  unfold requestInterceptor
  cases hg : getToken s with
  | none => rfl
  | some t =>
    rw [hg] at h
    simp [tokenTruthy] at h
    simp [h]

/-- Writing a non-empty token preserves truthiness of the readable token. -/
theorem tokenTruthy_setToken (s : Storage) (t : String) (ht : t ≠ "")
    (h : tokenTruthy (getToken s) = true) :
    tokenTruthy (getToken (setToken (some t) s)) = true := by
  cases hfail : s.failing with
  | true => simpa [setToken, hfail] using h
  | false => simp [getToken_setToken_some s t hfail ht, tokenTruthy, ht]

/-- The startup check preserves the token-backed invariant. -/
theorem tokenBacked_startupStep (me : MeFn) (w : World)
    (hw : tokenBacked w) : tokenBacked (startupStep me w) := by
  unfold startupStep
  cases htok : tokenTruthy (getToken w.storage) with
  | false =>
    simp only [htok, Bool.false_eq_true, if_false]
    intro u hu
    exact hw u hu
  | true =>
    simp only [htok, if_true]
    cases hme : me (requestInterceptor w.storage none) with
    | ok u' =>
      intro u _
      exact htok
    | error e =>
      intro u hu
      exact absurd hu (by simp)

/-- `login` preserves the token-backed invariant when the backend is
well-behaved (identity fetches need credentials, issued tokens non-empty). -/
theorem tokenBacked_loginStep (lr : Except HttpErr String) (me : MeFn) (w : World)
    (hauth : requiresAuth me) (hiss : issuedToken lr)
    (hw : tokenBacked w) : tokenBacked (loginStep lr me w).1 := by
  cases lr with
  | error e => simpa [loginStep] using hw
  | ok tok =>
    have ht : tok ≠ "" := by
      intro h
      exact hiss (by rw [h])
    cases hme : me (requestInterceptor (setToken (some tok) w.storage) none) with
    | error e =>
      simp only [loginStep, hme]
      intro u hu
      exact tokenTruthy_setToken w.storage tok ht (hw u hu)
    | ok u' =>
      simp only [loginStep, hme]
      intro u _
      by_contra hfalse
      have h0 : tokenTruthy (getToken (setToken (some tok) w.storage)) = false :=
        Bool.not_eq_true _ |>.mp hfalse
      rw [requestInterceptor_not_truthy _ none h0] at hme
      exact hauth u' hme

/-- A single well-behaved operation preserves the token-backed invariant. -/
theorem tokenBacked_runOp (op : Op) (w : World) (hop : op.WellBehaved)
    (hw : tokenBacked w) : tokenBacked (runOp op w) := by
  cases op with
  | startup me => exact tokenBacked_startupStep me w hw
  | login lr me => exact tokenBacked_loginStep lr me w hop.1 hop.2 hw
  | register rr lr me =>
    cases rr with
    | error e => simpa [runOp, registerStep] using hw
    | ok n =>
      have := tokenBacked_loginStep lr me w hop.1 hop.2 hw
      simpa [runOp, registerStep] using this
  | logout =>
    intro u hu
    exact absurd hu (by simp [runOp, logoutStep])

/-- Any sequence of well-behaved operations preserves the invariant. -/
theorem tokenBacked_runOps (ops : List Op) (w : World)
    (hops : ∀ op ∈ ops, op.WellBehaved) (hw : tokenBacked w) :
    tokenBacked (runOps ops w) := by
  induction ops generalizing w with
  | nil => simpa [runOps] using hw
  | cons op rest ih =>
    have hstep := tokenBacked_runOp op w (hops op (List.mem_cons_self op rest)) hw
    have hrest : ∀ o ∈ rest, o.WellBehaved := fun o ho =>
      hops o (List.mem_cons_of_mem op ho)
    simpa [runOps] using ih (runOp op w) hrest hstep

-- ===================== Claim theorems =====================

/-- C1 (login ordering): when the token exchange and the subsequent identity
fetch both succeed, `login` resolves only after the fetched Identity is
installed: the state at resolution (the returned world, in this sequential
embedding) has `user` set to exactly the fetched Identity and is not loading.
`login` itself never touches `loading`, so the hypothesis `loading = false`
records that login is invoked from the steady (Anonymous) state of the spec's
machine, in which every post-startup call occurs. -/
theorem c1_login_resolves_authenticated (w : World) (tok : String) (me : MeFn)
    (u : User) (hload : w.session.loading = false)
    (hme : me (requestInterceptor (setToken (some tok) w.storage) none) = Except.ok u) :
    (loginStep (Except.ok tok) me w).2 = Except.ok () ∧
    (loginStep (Except.ok tok) me w).1.session.user = some u ∧
    (loginStep (Except.ok tok) me w).1.session.loading = false := by
  simp [loginStep, hme, hload]

/-- C1 witness: a concrete successful login from a cold anonymous state ends
Authenticated with the fetched identity. -/
theorem c1_login_resolves_authenticated_witness :
    (loginStep (Except.ok "tok-1")
      (fun _ => Except.ok (User.mk 7 "Thandi Mokoena" "thandi@x.com" "PARENT"))
      (World.mk (Storage.mk none false) (SessionState.mk none false))).2 = Except.ok () ∧
    (loginStep (Except.ok "tok-1")
      (fun _ => Except.ok (User.mk 7 "Thandi Mokoena" "thandi@x.com" "PARENT"))
      (World.mk (Storage.mk none false) (SessionState.mk none false))).1.session.user =
      some (User.mk 7 "Thandi Mokoena" "thandi@x.com" "PARENT") ∧
    (loginStep (Except.ok "tok-1")
      (fun _ => Except.ok (User.mk 7 "Thandi Mokoena" "thandi@x.com" "PARENT"))
      (World.mk (Storage.mk none false) (SessionState.mk none false))).1.session.loading = false :=
  c1_login_resolves_authenticated
    (World.mk (Storage.mk none false) (SessionState.mk none false)) "tok-1"
    (fun _ => Except.ok (User.mk 7 "Thandi Mokoena" "thandi@x.com" "PARENT"))
    (User.mk 7 "Thandi Mokoena" "thandi@x.com" "PARENT") rfl rfl

/-- C3 (identity implies token): from any cold start, after any sequence of
Session Manager operations — startup checks, logins, registrations, logouts —
against a well-behaved backend (the identity endpoint rejects requests with
no Authorization header, successful logins issue non-empty tokens), a present
Identity implies a token readable from the Token Store. The quantification
over `Storage` includes stores whose writes silently fail (`failing = true`):
there the identity fetch carries no header, so it is rejected and no Identity
is ever installed. -/
theorem c3_identity_implies_token (ops : List Op) (s : Storage)
    (hops : ∀ op ∈ ops, op.WellBehaved) :
    tokenBacked (runOps ops (initialWorld s)) := by
  refine tokenBacked_runOps ops (initialWorld s) hops ?_
  intro u hu
  simp [initialWorld] at hu

/-- C3 witness: a concrete run — failed startup with a stale token, then a
successful login — ends in a state satisfying the invariant (identity present
and token "tok-1" stored). -/
theorem c3_identity_implies_token_witness :
    tokenBacked (runOps
      [Op.startup (fun _ => Except.error (HttpErr.mk (some 401) none)),
       Op.login (Except.ok "tok-1")
         (fun h => if h = none then Except.error (HttpErr.mk (some 401) none)
                   else Except.ok (User.mk 7 "Thandi Mokoena" "thandi@x.com" "PARENT"))]
      (initialWorld (Storage.mk (some "stale") false))) := by
  refine c3_identity_implies_token _ _ ?_
  intro op hop
  simp only [List.mem_cons, List.mem_singleton] at hop
  rcases hop with h | h | h
  · rw [h]; trivial
  · rw [h]
    constructor
    · intro u hu
      simp at hu
    · intro hbad
      simp at hbad
  · cases h

/-- C4 (startup with invalid token): when the store holds a truthy token and
the identity fetch fails with any error, the startup check ends with the
store cleared, no Identity, and `loading = false`; the readable token is
`none` afterwards. `startupStep` returns a plain `World` (no error channel):
the failure is consumed by the catch and never surfaced. -/
theorem c4_startup_invalid_token (w : World) (me : MeFn) (e : HttpErr)
    (htok : tokenTruthy (getToken w.storage) = true)
    (hme : me (requestInterceptor w.storage none) = Except.error e) :
    startupStep me w = World.mk (clearToken w.storage) (SessionState.mk none false) ∧
    getToken (startupStep me w).storage = none := by
  constructor
  · simp [startupStep, htok, hme]
  · simp [startupStep, htok, hme, getToken_clearToken]

/-- C4 witness: a concrete stale token "stale" whose identity fetch answers
401 is cleared and the session ends Anonymous, not loading. -/
theorem c4_startup_invalid_token_witness :
    startupStep (fun _ => Except.error (HttpErr.mk (some 401) none))
      (World.mk (Storage.mk (some "stale") false) (SessionState.mk none true)) =
      World.mk (Storage.mk none false) (SessionState.mk none false) ∧
    getToken (startupStep (fun _ => Except.error (HttpErr.mk (some 401) none))
      (World.mk (Storage.mk (some "stale") false) (SessionState.mk none true))).storage = none :=
  c4_startup_invalid_token
    (World.mk (Storage.mk (some "stale") false) (SessionState.mk none true))
    (fun _ => Except.error (HttpErr.mk (some 401) none))
    (HttpErr.mk (some 401) none) rfl rfl

/-- C5 (login failure modes): if the token exchange succeeds with token `tok`
(non-empty, written to a working store) but the identity fetch fails, `login`
rejects with that error while the token is already readable from the store
and the session is unchanged; if the token exchange itself fails, the whole
world is unchanged and the error is propagated. -/
theorem c5_login_failure_modes (w : World) (tok : String) (me : MeFn)
    (e eTok : HttpErr)
    (hfail : w.storage.failing = false) (ht : tok ≠ "")
    (hme : me (requestInterceptor (setToken (some tok) w.storage) none) = Except.error e) :
    ((loginStep (Except.ok tok) me w).2 = Except.error e ∧
     getToken (loginStep (Except.ok tok) me w).1.storage = some tok ∧
     (loginStep (Except.ok tok) me w).1.session = w.session) ∧
    loginStep (Except.error eTok) me w = (w, Except.error eTok) := by
  refine ⟨⟨?_, ?_, ?_⟩, rfl⟩
  · simp [loginStep, hme]
  · simp [loginStep, hme, getToken_setToken_some w.storage tok hfail ht]
  · simp [loginStep, hme]

/-- C5 witness: a concrete login whose identity fetch answers 500 rejects
while "tok-1" is already stored; a concrete failed exchange leaves the world
untouched. -/
theorem c5_login_failure_modes_witness :
    ((loginStep (Except.ok "tok-1") (fun _ => Except.error (HttpErr.mk (some 500) none))
        (World.mk (Storage.mk none false) (SessionState.mk none false))).2 =
          Except.error (HttpErr.mk (some 500) none) ∧
     getToken (loginStep (Except.ok "tok-1")
        (fun _ => Except.error (HttpErr.mk (some 500) none))
        (World.mk (Storage.mk none false) (SessionState.mk none false))).1.storage =
          some "tok-1" ∧
     (loginStep (Except.ok "tok-1") (fun _ => Except.error (HttpErr.mk (some 500) none))
        (World.mk (Storage.mk none false) (SessionState.mk none false))).1.session =
          SessionState.mk none false) ∧
    loginStep (Except.error (HttpErr.mk (some 401) none))
      (fun _ => Except.error (HttpErr.mk (some 500) none))
      (World.mk (Storage.mk none false) (SessionState.mk none false)) =
      (World.mk (Storage.mk none false) (SessionState.mk none false),
       Except.error (HttpErr.mk (some 401) none)) :=
  c5_login_failure_modes
    (World.mk (Storage.mk none false) (SessionState.mk none false)) "tok-1"
    (fun _ => Except.error (HttpErr.mk (some 500) none))
    (HttpErr.mk (some 500) none) (HttpErr.mk (some 401) none)
    rfl (by decide) rfl

/-- C2 counterexample: the claim quantifies over every outbound request of the
repository's HTTP layer, but the fetch-based `request` helper in
src/api/client.ts builds its headers without ever consulting the token store:
with the store holding token "tok" and the caller attaching nothing (callers
never attach the header manually), the request carries no Authorization
header at all. -/
theorem c2_fetch_helper_no_header :
    getToken (Storage.mk (some "tok") false) = some "tok" ∧
    (fetchRequestHeaders []).lookup "Authorization" = none := by
  constructor
  · rfl
  · rfl

/-- C2 amended: every request through the axios gateway issued while the
Token Store holds a token `t` (necessarily non-empty: writes never leave an
empty token readable) carries `Authorization: Bearer t` with exactly the
stored value, and issued while the store reads empty carries no Authorization
header; the fetch-based `request` helper in src/api/client.ts attaches no
Authorization header itself — its requests carry exactly what the caller put
in `init.headers`. -/
theorem c2_gateway_header_injection (s : Storage) (t : String)
    (callerHeaders : List (String × String)) :
    (getToken s = some t → t ≠ "" → requestInterceptor s none = some ("Bearer " ++ t)) ∧
    (getToken s = none → requestInterceptor s none = none) ∧
    (fetchRequestHeaders callerHeaders).lookup "Authorization" =
      callerHeaders.lookup "Authorization" ∧
    (∀ opt : Option String, ∀ u : String,
      getToken (setToken opt s) = some u → u ≠ "") := by
  refine ⟨?_, ?_, ?_, ?_⟩
  · intro hg ht
    simp [requestInterceptor, hg, ht]
  · intro hg
    simp [requestInterceptor, hg]
  · simp [fetchRequestHeaders, List.lookup]
  · exact fun opt u h => getToken_setToken_ne_empty s opt u h

/-- C2 witness: concrete stores — one holding "tok", one empty — get exactly
the expected header treatment from the gateway. -/
theorem c2_gateway_header_injection_witness :
    requestInterceptor (Storage.mk (some "tok") false) none = some ("Bearer " ++ "tok") ∧
    requestInterceptor (Storage.mk none false) none = none :=
  ⟨(c2_gateway_header_injection (Storage.mk (some "tok") false) "tok" []).1 rfl (by decide),
   (c2_gateway_header_injection (Storage.mk none false) "tok" []).2.1 rfl⟩

/-- C6 (gate while loading): for every role requirement the gate is
instantiated with in src/App.tsx (any-authenticated, ADMIN, USER) and every
Identity value, a loading session renders the checking placeholder and never
a redirect. (Routes with no requirement never pass through the gate at all,
so they trivially produce no redirect either.) -/
theorem c6_gate_loading_placeholder (req : RoleReq) (u : Option User) :
    gate req (SessionState.mk u true) = GateResult.placeholder ∧
    ∀ dest : String, gate req (SessionState.mk u true) ≠ GateResult.redirect dest := by
  cases req <;>
    simp [gate, RequireAuth, RequireAdmin, RequireUser]

/-- C6 witness: concrete loading sessions — one authenticated as USER under
the ADMIN guard, one anonymous under the any-auth guard — both get the
placeholder and no login redirect. -/
theorem c6_gate_loading_placeholder_witness :
    gate RoleReq.admin (SessionState.mk (some (User.mk 1 "P" "p@x" "USER")) true) =
      GateResult.placeholder ∧
    gate RoleReq.anyAuth (SessionState.mk none true) ≠ GateResult.redirect "/login" :=
  ⟨(c6_gate_loading_placeholder RoleReq.admin (some (User.mk 1 "P" "p@x" "USER"))).1,
   (c6_gate_loading_placeholder RoleReq.anyAuth none).2 "/login"⟩

/-- C7 (gate redirect targets): with loading over, a present Identity whose
role misses an exact-role requirement is redirected to home "/" (not to
"/login"), while an absent Identity is redirected to "/login" by every
guard. -/
theorem c7_gate_redirect_targets (u : User) (req : RoleReq) :
    (u.role ≠ "ADMIN" → RequireAdmin (SessionState.mk (some u) false) = GateResult.redirect "/") ∧
    (u.role ≠ "USER" → RequireUser (SessionState.mk (some u) false) = GateResult.redirect "/") ∧
    gate req (SessionState.mk none false) = GateResult.redirect "/login" := by
  refine ⟨?_, ?_, ?_⟩
  · intro h
    simp [RequireAdmin, h]
  · intro h
    simp [RequireUser, h]
  · cases req <;> simp [gate, RequireAuth, RequireAdmin, RequireUser]

/-- C7 witness: a USER hitting an ADMIN-only destination goes home, an ADMIN
hitting a USER-only destination goes home, and an anonymous session hitting a
guarded destination goes to login. -/
theorem c7_gate_redirect_targets_witness :
    RequireAdmin (SessionState.mk (some (User.mk 1 "P" "p@x" "USER")) false) =
      GateResult.redirect "/" ∧
    RequireUser (SessionState.mk (some (User.mk 2 "A" "a@x" "ADMIN")) false) =
      GateResult.redirect "/" ∧
    gate RoleReq.anyAuth (SessionState.mk none false) = GateResult.redirect "/login" :=
  ⟨(c7_gate_redirect_targets (User.mk 1 "P" "p@x" "USER") RoleReq.anyAuth).1 (by decide),
   (c7_gate_redirect_targets (User.mk 2 "A" "a@x" "ADMIN") RoleReq.anyAuth).2.1 (by decide),
   (c7_gate_redirect_targets (User.mk 1 "P" "p@x" "USER") RoleReq.anyAuth).2.2⟩

/-- C8 counterexample: the fetch-based `request` helper throws
`new Error(await res.text())` on a non-2xx response — two responses with
different statuses but the same body produce identical errors, so the error
cannot carry the HTTP status code. -/
theorem c8_fetch_error_discards_status :
    fetchRequest (FetchResponse.mk 404 "boom") = Except.error "boom" ∧
    fetchRequest (FetchResponse.mk 500 "boom") = Except.error "boom" ∧
    (404 : Nat) ≠ 500 := by
  refine ⟨rfl, rfl, by decide⟩

/-- C8 amended: the axios gateway surfaces a non-2xx response as the axios
error, which its response interceptor passes through unchanged — status and
structured payload intact; the fetch-based `request` helper in
src/api/client.ts fails on a non-2xx response with an error carrying only the
response body text, discarding the status code. -/
theorem c8_error_information (r : FetchResponse) (s : Storage) (e : HttpErr)
    (hr : r.isOk = false) :
    fetchRequest r = Except.error r.body ∧
    responseErrorInterceptor s e = (s, e) ∧
    (responseErrorInterceptor s e).2.status = e.status ∧
    (responseErrorInterceptor s e).2.payload = e.payload := by
  have hpass : responseErrorInterceptor s e = (s, e) := by
    unfold responseErrorInterceptor
    split <;> rfl
  refine ⟨by simp [fetchRequest, hr], hpass, by rw [hpass], by rw [hpass]⟩

/-- C8 witness: a concrete 404 with body "boom" is thrown as the body text by
the fetch helper, and a concrete 404 axios error passes through the gateway
interceptor with status and payload intact. -/
theorem c8_error_information_witness :
    fetchRequest (FetchResponse.mk 404 "boom") = Except.error "boom" ∧
    responseErrorInterceptor (Storage.mk none false)
        (HttpErr.mk (some 404) (some "nf")) =
      (Storage.mk none false, HttpErr.mk (some 404) (some "nf")) ∧
    (responseErrorInterceptor (Storage.mk none false)
        (HttpErr.mk (some 404) (some "nf"))).2.status = some 404 ∧
    (responseErrorInterceptor (Storage.mk none false)
        (HttpErr.mk (some 404) (some "nf"))).2.payload = some "nf" :=
  c8_error_information (FetchResponse.mk 404 "boom") (Storage.mk none false)
    (HttpErr.mk (some 404) (some "nf")) (by decide)

/-- C9 (gateway takes no corrective action): on every response the gateway's
interceptors leave the token store exactly as it was and hand the response or
error through unchanged — in particular a 401 error is propagated as-is and
nothing is written to or cleared from the store. -/
theorem c9_gateway_passive {α : Type} (s : Storage) (e : HttpErr) (r : α) :
    responseErrorInterceptor s e = (s, e) ∧
    responseSuccessInterceptor s r = (s, r) := by
  constructor
  · unfold responseErrorInterceptor
    split <;> rfl
  · rfl

/-- C10 (useAuth outside a provider): reading the session accessor with no
surrounding AuthProvider throws the error "useAuth must be used within
AuthProvider" rather than yielding any Session State, and inside a provider
it returns exactly the provider-backed state. -/
theorem c10_useAuth_requires_provider :
    useAuth none = Except.error "useAuth must be used within AuthProvider" ∧
    ∀ st : SessionState, useAuth (some st) = Except.ok st :=
  ⟨rfl, fun _ => rfl⟩

end Creche
